import Mathlib

/-!
Shallow embedding of the core of the pinnacle Wayland compositor:
the interactive resize grab state machine and resize-commit position
correction (src/grab/resize_grab.rs), the xwayland configure-request
handler (src/handlers/xwayland.rs) and the render composition pipeline
(src/render.rs).

Coordinates and sizes are modelled as unbounded integers.  In the source,
window locations are `f64` values that always originate from `i32` space
locations and are only ever combined by adding `i32`-derived differences,
so integer arithmetic is exact for them; sizes are `i32`.  Where `i32`
overflow semantics matter (the `i32::clamp` panic branch, the `u32 as i32`
cast) they are modelled explicitly.
-/

namespace Pinnacle

/-- A logical point (`Point<f64, Logical>` / `Point<i32, Logical>`). -/
structure Point where
  x : Int
  y : Int
deriving DecidableEq

/-- A logical size (`Size<i32, Logical>`). -/
structure Size where
  w : Int
  h : Int
deriving DecidableEq

/-- `xdg_toplevel::ResizeEdge`, the edge set held during a resize grab. -/
inductive ResizeEdge where
  | None
  | Top
  | Bottom
  | Left
  | TopLeft
  | BottomLeft
  | Right
  | TopRight
  | BottomRight
deriving DecidableEq

/-- The `Left | TopLeft | BottomLeft` pattern used by
`ResizeSurfaceGrab::motion` and `Pinnacle::move_surface_if_resized`. -/
def ResizeEdge.hasLeft : ResizeEdge → Bool
  | .Left | .TopLeft | .BottomLeft => true
  | _ => false

/-- The `Right | TopRight | BottomRight` pattern in `ResizeSurfaceGrab::motion`. -/
def ResizeEdge.hasRight : ResizeEdge → Bool
  | .Right | .TopRight | .BottomRight => true
  | _ => false

/-- The `Top | TopRight | TopLeft` pattern used by
`ResizeSurfaceGrab::motion` and `Pinnacle::move_surface_if_resized`. -/
def ResizeEdge.hasTop : ResizeEdge → Bool
  | .Top | .TopRight | .TopLeft => true
  | _ => false

/-- The `Bottom | BottomRight | BottomLeft` pattern in `ResizeSurfaceGrab::motion`. -/
def ResizeEdge.hasBottom : ResizeEdge → Bool
  | .Bottom | .BottomRight | .BottomLeft => true
  | _ => false

/-- `ResizeSurfaceState`: the per-surface resize-commit state machine. -/
inductive ResizeSurfaceState where
  | Idle
  | Resizing (edges : ResizeEdge) (initial_window_loc : Point)
      (initial_window_size : Size)
  | WaitingForLastCommit (edges : ResizeEdge) (initial_window_loc : Point)
      (initial_window_size : Size)
deriving DecidableEq

/-- `ResizeSurfaceState::on_commit`.  The source mutates `self` and returns
an optional payload; here the first component is the state after the call
and the second is the returned payload. -/
def ResizeSurfaceState.on_commit :
    ResizeSurfaceState → ResizeSurfaceState × Option (ResizeEdge × Point × Size)
  | .Idle => (.Idle, none)
  | .Resizing edges loc size => (.Resizing edges loc size, some (edges, loc, size))
  | .WaitingForLastCommit edges loc size => (.Idle, some (edges, loc, size))

/-- The state touched by `Pinnacle::move_surface_if_resized` for one surface
commit: whether `window_for_surface` finds a window, that window's
floating flag, its location in the `Space` (`element_location`, `none` when
unmapped), its committed geometry size (`window.geometry().size`), the
surface's resize-commit state, and the window's `floating_loc` record. -/
structure CommitCtx where
  window_found : Bool
  is_floating : Bool
  space_loc : Option Point
  geometry : Size
  resize_state : ResizeSurfaceState
  floating_loc : Option Point
deriving DecidableEq

/-- `Pinnacle::move_surface_if_resized`, the position correction run on
every buffer commit.  Early-outs: no window for the surface, window not
floating, window not in the `Space`.  Otherwise `on_commit` advances the
resize-commit state, and for each held top/left edge the corresponding
coordinate becomes `initial_window_loc + (initial_window_size - geometry)`.
`floating_loc` is always rewritten once `on_commit` yields a payload; the
`Space` location is re-mapped only when at least one axis changed. -/
def move_surface_if_resized (s : CommitCtx) : CommitCtx :=
  if !s.window_found then s
  else if !s.is_floating then s
  else
    match s.space_loc with
    | none => s
    | some window_loc =>
      let res := s.resize_state.on_commit
      match res.2 with
      | none => { s with resize_state := res.1 }
      | some (edges, initial_window_loc, initial_window_size) =>
        let new_x : Option Int :=
          if edges.hasLeft then
            some (initial_window_loc.x + (initial_window_size.w - s.geometry.w))
          else none
        let new_y : Option Int :=
          if edges.hasTop then
            some (initial_window_loc.y + (initial_window_size.h - s.geometry.h))
          else none
        let window_loc' : Point := ⟨new_x.getD window_loc.x, new_y.getD window_loc.y⟩
        let s' := { s with resize_state := res.1, floating_loc := some window_loc' }
        if new_x.isSome || new_y.isSome then { s' with space_loc := some window_loc' }
        else s'

/-- `i32::MAX`, substituted for a zero advertised maximum size in
`ResizeSurfaceGrab::motion`. -/
def i32Max : Int := 2147483647

/-- The candidate size computed by `ResizeSurfaceGrab::motion` from the
pointer delta before clamping: width is `initial - delta.x` for left
edges and `initial + delta.x` for right edges, height is
`initial - delta.y` for top edges and `initial + delta.y` for bottom
edges, otherwise the initial dimension. -/
def candidateSize (edges : ResizeEdge) (initial : Size) (delta : Point) : Size :=
  let w := initial.w
  let w := if edges.hasLeft then initial.w - delta.x else w
  let w := if edges.hasRight then initial.w + delta.x else w
  let h := initial.h
  let h := if edges.hasTop then initial.h - delta.y else h
  let h := if edges.hasBottom then initial.h + delta.y else h
  ⟨w, h⟩

/-- Rust's `i32::clamp(min, max)`: asserts `min <= max` (the panic branch
is `none`), then bounds the value. -/
def rustClamp (x lo hi : Int) : Option Int :=
  if lo ≤ hi then some (if x < lo then lo else if x > hi then hi else x)
  else none

/-- The size computation of `ResizeSurfaceGrab::motion` for a live window:
candidate from the pointer delta, then per-axis `clamp` to
`[max(1, min_size), max_size]` with a zero `max_size` replaced by
`i32::MAX`.  `none` models the `clamp` panic. -/
def motionSize (edges : ResizeEdge) (initial : Size) (delta : Point)
    (minSize maxSize : Size) : Option Size :=
  let c := candidateSize edges initial delta
  let minWidth := max 1 minSize.w
  let minHeight := max 1 minSize.h
  let maxWidth := if maxSize.w ≠ 0 then maxSize.w else i32Max
  let maxHeight := if maxSize.h ≠ 0 then maxSize.h else i32Max
  match rustClamp c.w minWidth maxWidth, rustClamp c.h minHeight maxHeight with
  | some w, some h => some ⟨w, h⟩
  | _, _ => none

/-- The clamping described by the spec: into `[lo, hi]` per axis, with no
upper bound at all when the advertised maximum `hi` is zero. -/
def specClampAxis (c lo hi : Int) : Int :=
  if hi = 0 then max lo c else max lo (min c hi)

/-- Claim C2: during a resize grab on a live window, the new size is the
initial size adjusted by the pointer delta according to the held edges,
clamped per axis into `[max(1, min_size), max_size]`, a zero advertised
maximum meaning no upper clamp in that axis.  The i32-range hypotheses
make the source's `i32::MAX` stand-in for "no maximum" coincide with
"no upper clamp". -/
theorem motionSize_clamps (edges : ResizeEdge) (initial : Size) (delta : Point)
    (minSize maxSize : Size)
    (hw0 : maxSize.w = 0 →
      (candidateSize edges initial delta).w ≤ i32Max ∧ minSize.w ≤ i32Max)
    (hw1 : maxSize.w ≠ 0 → max 1 minSize.w ≤ maxSize.w)
    (hh0 : maxSize.h = 0 →
      (candidateSize edges initial delta).h ≤ i32Max ∧ minSize.h ≤ i32Max)
    (hh1 : maxSize.h ≠ 0 → max 1 minSize.h ≤ maxSize.h) :
    motionSize edges initial delta minSize maxSize =
      some ⟨specClampAxis (candidateSize edges initial delta).w
              (max 1 minSize.w) maxSize.w,
            specClampAxis (candidateSize edges initial delta).h
              (max 1 minSize.h) maxSize.h⟩ := by
  have axis : ∀ c lo hi : Int, 1 ≤ lo →
      (hi = 0 → c ≤ i32Max ∧ lo ≤ i32Max) → (hi ≠ 0 → lo ≤ hi) →
      rustClamp c lo (if hi ≠ 0 then hi else i32Max) = some (specClampAxis c lo hi) := by
    intro c lo hi h1 h0 hne
    by_cases hz : hi = 0
    · obtain ⟨hc, hlo⟩ := h0 hz
      simp only [rustClamp, specClampAxis, max_def, min_def]
      split_ifs <;>
        first
          | (exfalso; omega)
          | (simp only [Option.some.injEq]; try omega)
    · have hlohi := hne hz
      simp only [rustClamp, specClampAxis, max_def, min_def]
      split_ifs <;>
        first
          | (exfalso; omega)
          | (simp only [Option.some.injEq]; try omega)
  have hw := axis (candidateSize edges initial delta).w (max 1 minSize.w) maxSize.w
    (le_max_left 1 minSize.w)
    (fun hz => ⟨(hw0 hz).1, le_trans (max_le (by norm_num [i32Max]) (hw0 hz).2) le_rfl⟩)
    hw1
  have hh := axis (candidateSize edges initial delta).h (max 1 minSize.h) maxSize.h
    (le_max_left 1 minSize.h)
    (fun hz => ⟨(hh0 hz).1, le_trans (max_le (by norm_num [i32Max]) (hh0 hz).2) le_rfl⟩)
    hh1
  simp only [motionSize]
  rw [hw, hh]

/-- Witness for C2, the spec's scenario: initial geometry 200x200, edges
TopLeft, pointer from (100, 100) to (80, 120) so delta (-20, 20),
min size (50, 50), no maximum; the resulting size is (220, 180). -/
theorem motionSize_clamps_witness :
    motionSize .TopLeft ⟨200, 200⟩ ⟨-20, 20⟩ ⟨50, 50⟩ ⟨0, 0⟩ =
      some ⟨220, 180⟩ := by
  have h := motionSize_clamps .TopLeft ⟨200, 200⟩ ⟨-20, 20⟩ ⟨50, 50⟩ ⟨0, 0⟩
    (by intro _; exact ⟨by decide, by decide⟩)
    (by intro hz; exact absurd rfl hz)
    (by intro _; exact ⟨by decide, by decide⟩)
    (by intro hz; exact absurd rfl hz)
  rw [h]
  decide

/-- Claim C9: the size computation of the motion handler is panic-free
exactly when, in each axis, the advertised maximum is zero or at least
`max(1, min)`; a nonzero maximum below the floored minimum hits the
`i32::clamp` panic branch.  The hypotheses record that advertised minima
fit in an `i32`. -/
theorem motionSize_total_iff (edges : ResizeEdge) (initial : Size) (delta : Point)
    (minSize maxSize : Size)
    (hminw : minSize.w ≤ i32Max) (hminh : minSize.h ≤ i32Max) :
    (motionSize edges initial delta minSize maxSize).isSome = true ↔
      ((maxSize.w = 0 ∨ max 1 minSize.w ≤ maxSize.w) ∧
       (maxSize.h = 0 ∨ max 1 minSize.h ≤ maxSize.h)) := by
  have axis : ∀ c lo hi : Int, lo ≤ i32Max →
      ((rustClamp c lo (if hi ≠ 0 then hi else i32Max)).isSome = true ↔
        (hi = 0 ∨ lo ≤ hi)) := by
    intro c lo hi hlo
    by_cases hz : hi = 0
    · simp [rustClamp, hz, hlo]
    · simp [rustClamp, hz]
  have hw := axis (candidateSize edges initial delta).w (max 1 minSize.w) maxSize.w
    (max_le (by norm_num [i32Max]) hminw)
  have hh := axis (candidateSize edges initial delta).h (max 1 minSize.h) maxSize.h
    (max_le (by norm_num [i32Max]) hminh)
  simp only [motionSize]
  cases hcw : rustClamp (candidateSize edges initial delta).w (max 1 minSize.w)
      (if maxSize.w ≠ 0 then maxSize.w else i32Max) with
  | none =>
    cases hch : rustClamp (candidateSize edges initial delta).h (max 1 minSize.h)
        (if maxSize.h ≠ 0 then maxSize.h else i32Max) with
    | none => simp_all
    | some h' => simp_all
  | some w' =>
    cases hch : rustClamp (candidateSize edges initial delta).h (max 1 minSize.h)
        (if maxSize.h ≠ 0 then maxSize.h else i32Max) with
    | none => simp_all
    | some h' => simp_all

/-- Witness for C9: with minimum (50, 50) and no advertised maximum the
precondition holds and the handler computes a size. -/
theorem motionSize_total_iff_witness :
    (motionSize .Right ⟨100, 100⟩ ⟨5, 5⟩ ⟨50, 50⟩ ⟨0, 0⟩).isSome = true :=
  (motionSize_total_iff .Right ⟨100, 100⟩ ⟨5, 5⟩ ⟨50, 50⟩ ⟨0, 0⟩
    (by decide) (by decide)).mpr (by decide)

/-- Claim C1: on a buffer commit from a surface whose resize-commit state is
`Resizing` or `WaitingForLastCommit` with edge set `e` (window found,
floating, mapped in the `Space`), the corrected location is
`initial_window_loc + (initial_window_size - committed size)` along x
exactly when `e` holds a Left edge and along y exactly when `e` holds a Top
edge, the other coordinate staying at the current `Space` location; the
state stays `Resizing` in the first case and resets to `Idle` in the
second. -/
theorem move_surface_if_resized_correct (s : CommitCtx) (loc : Point)
    (e : ResizeEdge) (il : Point) (isz : Size)
    (hw : s.window_found = true) (hf : s.is_floating = true)
    (hl : s.space_loc = some loc)
    (hs : s.resize_state = .Resizing e il isz ∨
      s.resize_state = .WaitingForLastCommit e il isz) :
    (move_surface_if_resized s).floating_loc =
      some ⟨if e.hasLeft then il.x + (isz.w - s.geometry.w) else loc.x,
            if e.hasTop then il.y + (isz.h - s.geometry.h) else loc.y⟩ ∧
    (move_surface_if_resized s).space_loc =
      some ⟨if e.hasLeft then il.x + (isz.w - s.geometry.w) else loc.x,
            if e.hasTop then il.y + (isz.h - s.geometry.h) else loc.y⟩ ∧
    (move_surface_if_resized s).resize_state =
      (if s.resize_state = .WaitingForLastCommit e il isz then .Idle
       else s.resize_state) := by
  obtain ⟨lx, ly⟩ := loc
  rcases hs with hs | hs <;>
    cases hL : e.hasLeft <;> cases hT : e.hasTop <;>
      simp [move_surface_if_resized, ResizeSurfaceState.on_commit, hw, hf, hl,
        hs, hL, hT]

/-- Witness for C1 at a concrete commit: original geometry 200x200 at
(10, 20), edges TopLeft, committed size 180x190, state
`WaitingForLastCommit`; the window moves to (30, 30) and the state resets
to `Idle`. -/
theorem move_surface_if_resized_correct_witness :
    (move_surface_if_resized
        ⟨true, true, some ⟨10, 20⟩, ⟨180, 190⟩,
          .WaitingForLastCommit .TopLeft ⟨10, 20⟩ ⟨200, 200⟩, none⟩).floating_loc
      = some ⟨30, 30⟩ ∧
    (move_surface_if_resized
        ⟨true, true, some ⟨10, 20⟩, ⟨180, 190⟩,
          .WaitingForLastCommit .TopLeft ⟨10, 20⟩ ⟨200, 200⟩, none⟩).space_loc
      = some ⟨30, 30⟩ ∧
    (move_surface_if_resized
        ⟨true, true, some ⟨10, 20⟩, ⟨180, 190⟩,
          .WaitingForLastCommit .TopLeft ⟨10, 20⟩ ⟨200, 200⟩, none⟩).resize_state
      = .Idle := by
  have h := move_surface_if_resized_correct
    ⟨true, true, some ⟨10, 20⟩, ⟨180, 190⟩,
      .WaitingForLastCommit .TopLeft ⟨10, 20⟩ ⟨200, 200⟩, none⟩
    ⟨10, 20⟩ .TopLeft ⟨10, 20⟩ ⟨200, 200⟩ rfl rfl rfl (Or.inr rfl)
  simpa using h

/-- Claim C10: a commit for a surface whose window is not floating or is
absent from the `Space` mapping leaves everything unchanged — in
particular a `WaitingForLastCommit` state is not reset to `Idle`. -/
theorem move_surface_if_resized_noop (s : CommitCtx)
    (h : s.is_floating = false ∨ s.space_loc = none) :
    move_surface_if_resized s = s := by
  cases hw : s.window_found <;>
    rcases h with h | h <;>
      simp [move_surface_if_resized, hw, h]

/-- Witness for C10: a non-floating window in `WaitingForLastCommit`
keeps its state and location across a commit. -/
theorem move_surface_if_resized_noop_witness :
    move_surface_if_resized
        ⟨true, false, some ⟨5, 6⟩, ⟨100, 100⟩,
          .WaitingForLastCommit .Left ⟨5, 6⟩ ⟨120, 100⟩, none⟩ =
      ⟨true, false, some ⟨5, 6⟩, ⟨100, 100⟩,
        .WaitingForLastCommit .Left ⟨5, 6⟩ ⟨120, 100⟩, none⟩ :=
  move_surface_if_resized_noop _ (Or.inl rfl)

/-- Claim C8: position correction is idempotent — for a surface in a
non-`Idle` resize-commit state, two consecutive commits with the same
committed geometry produce the same location and resize-commit state as
one. -/
theorem move_surface_if_resized_idem (s : CommitCtx)
    (_h : s.resize_state ≠ .Idle) :
    move_surface_if_resized (move_surface_if_resized s) =
      move_surface_if_resized s := by
  obtain ⟨wf, fl, sl, geo, rs, flo⟩ := s
  cases wf with
  | false => simp [move_surface_if_resized]
  | true =>
    cases fl with
    | false => simp [move_surface_if_resized]
    | true =>
      cases sl with
      | none => simp [move_surface_if_resized]
      | some window_loc =>
        obtain ⟨lx, ly⟩ := window_loc
        cases rs with
        | Idle => simp [move_surface_if_resized, ResizeSurfaceState.on_commit]
        | Resizing e il isz =>
          cases hL : e.hasLeft <;> cases hT : e.hasTop <;>
            simp [move_surface_if_resized, ResizeSurfaceState.on_commit, hL, hT]
        | WaitingForLastCommit e il isz =>
          cases hL : e.hasLeft <;> cases hT : e.hasTop <;>
            simp [move_surface_if_resized, ResizeSurfaceState.on_commit, hL, hT]

/-- Witness for C8: a `Resizing` surface, commit with geometry 150x150
against original 200x200 held at the left edge; the second commit changes
nothing more. -/
theorem move_surface_if_resized_idem_witness :
    move_surface_if_resized
        (move_surface_if_resized
          ⟨true, true, some ⟨0, 0⟩, ⟨150, 150⟩,
            .Resizing .Left ⟨0, 0⟩ ⟨200, 200⟩, none⟩) =
      move_surface_if_resized
        ⟨true, true, some ⟨0, 0⟩, ⟨150, 150⟩,
          .Resizing .Left ⟨0, 0⟩ ⟨200, 200⟩, none⟩ :=
  move_surface_if_resized_idem _ (by decide)

/-- The surface kinds distinguished by `ResizeSurfaceGrab::ungrab`
(`WindowSurface`): a Wayland toplevel, or an X11 surface with its
override-redirect flag and whether `wl_surface()` yields a surface. -/
inductive WindowSurfaceKind where
  | wayland
  | x11 (override_redirect : Bool) (has_wl_surface : Bool)
deriving DecidableEq

/-- The fields of `ResizeSurfaceGrab` consulted by its `button` handler and
`ungrab`, together with the window's liveness and whether the triggering
button is still among the currently pressed buttons after the event. -/
structure ResizeSurfaceGrab where
  window_alive : Bool
  surface_kind : WindowSurfaceKind
  edges : ResizeEdge
  initial_window_loc : Point
  initial_window_size : Size
  button_used_pressed : Bool
deriving DecidableEq

/-- `ResizeSurfaceGrab::ungrab` acting on the surface's resize-commit
state: a dead window returns early; a Wayland toplevel, or a
non-override-redirect X11 surface with a `wl_surface`, is put into
`WaitingForLastCommit` with the original edges, location and size;
override-redirect X11 surfaces and X11 surfaces without a `wl_surface`
return early. -/
def ResizeSurfaceGrab.ungrab (g : ResizeSurfaceGrab)
    (st : ResizeSurfaceState) : ResizeSurfaceState :=
  if !g.window_alive then st
  else
    match g.surface_kind with
    | .wayland =>
      .WaitingForLastCommit g.edges g.initial_window_loc g.initial_window_size
    | .x11 override_redirect has_wl_surface =>
      if override_redirect then st
      else if has_wl_surface then
        .WaitingForLastCommit g.edges g.initial_window_loc g.initial_window_size
      else st

/-- `ResizeSurfaceGrab::button`'s effect on the resize-commit state: when
the triggering button is no longer pressed the grab is unset, which runs
`ungrab`; otherwise nothing changes. -/
def ResizeSurfaceGrab.button (g : ResizeSurfaceGrab)
    (st : ResizeSurfaceState) : ResizeSurfaceState :=
  if !g.button_used_pressed then g.ungrab st else st

/-- Counterexample to claim C4 as stated: if the window has died by the
time the triggering button is released, `ungrab` returns early and the
resize-commit state stays `Resizing` instead of becoming
`WaitingForLastCommit`. -/
theorem button_release_dead_window :
    ResizeSurfaceGrab.button
        ⟨false, .wayland, .Top, ⟨0, 0⟩, ⟨200, 200⟩, false⟩
        (.Resizing .Top ⟨0, 0⟩ ⟨200, 200⟩) =
      .Resizing .Top ⟨0, 0⟩ ⟨200, 200⟩ ∧
    ResizeSurfaceGrab.button
        ⟨false, .wayland, .Top, ⟨0, 0⟩, ⟨200, 200⟩, false⟩
        (.Resizing .Top ⟨0, 0⟩ ⟨200, 200⟩) ≠
      .WaitingForLastCommit .Top ⟨0, 0⟩ ⟨200, 200⟩ := by
  decide

/-- Claim C4 as amended: when the triggering button of an active resize
grab is released while the window is alive and its surface is a Wayland
toplevel or a non-override-redirect X11 surface with a `wl_surface`, the
resize-commit state becomes `WaitingForLastCommit` carrying the held
edges and the original pre-resize location and size — never `Idle`,
whatever the current state; a dead window, an override-redirect X11
surface, or an X11 surface without a `wl_surface` leaves the state
unchanged. -/
theorem button_release_waits (g : ResizeSurfaceGrab) (st : ResizeSurfaceState)
    (halive : g.window_alive = true)
    (hrel : g.button_used_pressed = false)
    (hkind : g.surface_kind = .wayland ∨ g.surface_kind = .x11 false true) :
    g.button st =
      .WaitingForLastCommit g.edges g.initial_window_loc g.initial_window_size := by
  rcases hkind with hk | hk <;>
    simp [ResizeSurfaceGrab.button, ResizeSurfaceGrab.ungrab, halive, hrel, hk]

/-- Witness for the amended C4: a live Wayland window whose committed size
already equals the requested one still goes to `WaitingForLastCommit`. -/
theorem button_release_waits_witness :
    ResizeSurfaceGrab.button
        ⟨true, .wayland, .Left, ⟨1, 2⟩, ⟨100, 100⟩, false⟩
        (.Resizing .Left ⟨1, 2⟩ ⟨100, 100⟩) =
      .WaitingForLastCommit .Left ⟨1, 2⟩ ⟨100, 100⟩ :=
  button_release_waits
    ⟨true, .wayland, .Left, ⟨1, 2⟩, ⟨100, 100⟩, false⟩
    (.Resizing .Left ⟨1, 2⟩ ⟨100, 100⟩) rfl rfl (Or.inl rfl)

/-- An X11 geometry (`Rectangle<i32, Logical>`). -/
structure Geometry where
  loc : Point
  size : Size
deriving DecidableEq

/-- The result of looking the `X11Surface` up in `pinnacle.windows` in
`XwmHandler::configure_request`: the matched window's override-redirect
flag and floating flag. -/
structure FoundWindow where
  is_x11_override_redirect : Bool
  is_floating : Bool
deriving DecidableEq

/-- Rust's `u32 as i32` cast used for the requested width and height. -/
def u32AsI32 (n : Nat) : Int :=
  let m := n % 4294967296
  if m < 2147483648 then (m : Int) else (m : Int) - 4294967296

/-- `XwmHandler::configure_request`: the request is granted when the
window is override-redirect, is floating, or no window in the registry
matches the surface (`unwrap_or(true)` — the window has not yet mapped).
When granted, the window's current geometry is overridden by whichever of
`x`, `y`, `w`, `h` the client supplied and sent back via `configure`;
otherwise nothing happens (`none`). -/
def configure_request (found : Option FoundWindow) (geo : Geometry)
    (x y : Option Int) (w h : Option Nat) : Option Geometry :=
  let should_configure :=
    (found.map (fun win => win.is_x11_override_redirect || win.is_floating)).getD true
  if should_configure then
    some
      { loc := ⟨x.getD geo.loc.x, y.getD geo.loc.y⟩,
        size := ⟨(w.map u32AsI32).getD geo.size.w, (h.map u32AsI32).getD geo.size.h⟩ }
  else none

/-- Claim C5: a foreign-protocol configure request results in a geometry
change exactly when the target window is override-redirect, or is
floating, or no window in the registry matches the surface (initial map
not completed); in every other case nothing changes. -/
theorem configure_request_granted_iff (found : Option FoundWindow)
    (geo : Geometry) (x y : Option Int) (w h : Option Nat) :
    (configure_request found geo x y w h).isSome = true ↔
      (found = none ∨
        ∃ win, found = some win ∧
          (win.is_x11_override_redirect = true ∨ win.is_floating = true)) := by
  cases found with
  | none => simp [configure_request]
  | some win =>
    cases hor : win.is_x11_override_redirect <;> cases hfl : win.is_floating <;>
      simp [configure_request, hor, hfl]

/-- The per-window state read and written by the render pipeline: identity,
the `is_fullscreen` window-state flag, membership in the output's active
tags, and the `offscreen_elem_id` cleared during rendering. -/
structure Window where
  wid : Nat
  is_fullscreen : Bool
  is_on_active_tag : Bool
  offscreen_elem_id : Option Nat
deriving DecidableEq

/-- `win.with_state_mut(|state| state.offscreen_elem_id.take())` performed
on every window visited by `window_render_elements`. -/
def clearOffscreen (w : Window) : Window :=
  { w with offscreen_elem_id := none }

/-- The `last_fullscreen_split_at` loop of `window_render_elements`: over
the reversed window sequence, every fullscreen window at position `i`
moves the split to `i + 1`. -/
def fullscreenSplit : List Window → Nat → Nat → Nat
  | [], _, acc => acc
  | w :: rest, i, acc =>
    fullscreenSplit rest (i + 1) (if w.is_fullscreen then i + 1 else acc)

/-- `window_render_elements` (src/render.rs): the input list is the
window sequence as the caller supplies it, back to front (z ascending);
the code iterates it reversed (front to back), clears each window's
`offscreen_elem_id`, tracks the split after the last fullscreen window
seen, and `split_off`s the collected per-window element runs there.  Each
window's run of render elements is represented by the (cleared) window
itself.  The first component holds the windows at and above the first
fullscreen window from the back, front to back; the second the rest. -/
def window_render_elements (windows : List Window) :
    List Window × List Window :=
  let revd := windows.reverse.map clearOffscreen
  let split := fullscreenSplit windows.reverse 0 0
  (revd.take split, revd.drop split)

/-- The four layer-shell bands collected by `layer_render_elements`, each
band's render elements abstracted as a list of element identifiers. -/
structure LayerRenderElements where
  background : List Nat
  bottom : List Nat
  top : List Nat
  overlay : List Nat
deriving DecidableEq

/-- `OutputRenderElement`, tagged by provenance: `surface` for layer-shell
elements, `windowSurface` for elements of a live window, `snapshot` for
elements of an in-flight layout-transition snapshot. -/
inductive OutputRenderElement where
  | surface (payload : Nat)
  | windowSurface (w : Window)
  | snapshot (payload : Nat)
deriving DecidableEq

/-- Layer-shell provenance test. -/
def OutputRenderElement.isLayerSurface : OutputRenderElement → Bool
  | .surface _ => true
  | _ => false

/-- `output_render_elements` (src/render.rs): with a layout-transition
snapshot present its two element groups substitute for the live window
list; otherwise the active-tag windows go through
`window_render_elements`.  The final sequence, front (drawn last) to
back, is overlay, fullscreen-and-up, top, rest, bottom, background.  The
second component is the window list after the call (the only mutation:
`offscreen_elem_id` of each rendered window is taken). -/
def output_render_elements (layers : LayerRenderElements)
    (snapshot : Option (List Nat × List Nat)) (windows : List Window) :
    List OutputRenderElement × List Window :=
  let groups : List OutputRenderElement × List OutputRenderElement :=
    match snapshot with
    | some p => (p.1.map .snapshot, p.2.map .snapshot)
    | none =>
      let g := window_render_elements (windows.filter (fun w => w.is_on_active_tag))
      (g.1.map .windowSurface, g.2.map .windowSurface)
  let elems :=
    layers.overlay.map .surface ++ groups.1 ++ layers.top.map .surface ++
      groups.2 ++ layers.bottom.map .surface ++ layers.background.map .surface
  let windows' := windows.map (fun w =>
    if snapshot.isNone && w.is_on_active_tag then clearOffscreen w else w)
  (elems, windows')

theorem fullscreenSplit_of_no_fs (l : List Window) :
    ∀ (i acc : Nat), (∀ w ∈ l, w.is_fullscreen = false) →
      fullscreenSplit l i acc = acc := by
  induction l with
  | nil => intro i acc _; rfl
  | cons w t ih =>
    intro i acc h
    have hw := h w (List.mem_cons_self w t)
    simp only [fullscreenSplit, hw, Bool.false_eq_true, if_false]
    exact ih (i + 1) acc (fun x hx => h x (List.mem_cons_of_mem w hx))

theorem fullscreenSplit_append (l₁ l₂ : List Window) :
    ∀ (i acc : Nat), fullscreenSplit (l₁ ++ l₂) i acc =
      fullscreenSplit l₂ (i + l₁.length) (fullscreenSplit l₁ i acc) := by
  induction l₁ with
  | nil => intro i acc; simp [fullscreenSplit]
  | cons w t ih =>
    intro i acc
    simp only [List.cons_append, fullscreenSplit, List.length_cons, List.append_eq]
    rw [ih]
    have harith : i + 1 + t.length = i + (t.length + 1) := by omega
    rw [harith]

/-- Claim C3: `window_render_elements` splits the back-to-front window
list at the first fullscreen window from the back: the fullscreen-and-up
group holds that window and everything above it, front to back, and the
rest group everything below it. -/
theorem window_render_elements_split (before after : List Window) (wk : Window)
    (hb : ∀ w ∈ before, w.is_fullscreen = false)
    (hfs : wk.is_fullscreen = true) :
    window_render_elements (before ++ wk :: after) =
      (((wk :: after).reverse).map clearOffscreen,
       (before.reverse).map clearOffscreen) := by
  have hrev : (before ++ wk :: after).reverse =
      (after.reverse ++ [wk]) ++ before.reverse := by
    simp
  have hsplit : fullscreenSplit ((after.reverse ++ [wk]) ++ before.reverse) 0 0 =
      after.length + 1 := by
    rw [fullscreenSplit_append]
    rw [fullscreenSplit_of_no_fs before.reverse _ _
      (fun w hw => hb w (List.mem_reverse.mp hw))]
    rw [fullscreenSplit_append]
    simp [fullscreenSplit, hfs]
  have hlen : ((after.reverse ++ [wk]).map clearOffscreen).length =
      after.length + 1 := by
    simp
  simp only [window_render_elements]
  rw [hrev, hsplit, List.map_append]
  rw [List.take_left' hlen, List.drop_left' hlen]
  simp

/-- A non-fullscreen window on the active tag with no pending offscreen
element, used in concrete render scenes. -/
def plainWin (n : Nat) : Window := ⟨n, false, true, none⟩

/-- A fullscreen window on the active tag, used in concrete render
scenes. -/
def fsWin (n : Nat) : Window := ⟨n, true, true, none⟩

/-- Witness for C3, the spec's scenario: 5 windows at z 0..4 (0 = bottom),
fullscreen at z 2; the fullscreen-and-up group is z {2, 3, 4} (front to
back) and the rest group is z {0, 1}. -/
theorem window_render_elements_split_witness :
    window_render_elements
        [plainWin 0, plainWin 1, fsWin 2, plainWin 3, plainWin 4] =
      ([plainWin 4, plainWin 3, fsWin 2], [plainWin 1, plainWin 0]) := by
  have h := window_render_elements_split [plainWin 0, plainWin 1]
    [plainWin 3, plainWin 4] (fsWin 2) (by decide) (by decide)
  simpa [plainWin, fsWin, clearOffscreen] using h

theorem all_layer_map_surface (l : List Nat) :
    (l.map OutputRenderElement.surface).all OutputRenderElement.isLayerSurface
      = true := by
  induction l with
  | nil => rfl
  | cons a t ih => simp [OutputRenderElement.isLayerSurface, ih]

/-- Claim C6: the render-element sequence for an output is exactly, front
(drawn last) to back: overlay layer, fullscreen-and-up window group, top
layer, rest-of-windows group, bottom layer, background layer — for any
snapshot and fullscreen/partition configuration; consequently the leading
overlay block and the trailing background block consist of layer-shell
elements only, so no window element is in front of the overlay layer or
behind the background layer. -/
theorem output_render_elements_order (L : LayerRenderElements)
    (snapshot : Option (List Nat × List Nat)) (windows : List Window) :
    (output_render_elements L snapshot windows).1 =
      L.overlay.map .surface ++
        (match snapshot with
          | some p => p.1.map OutputRenderElement.snapshot
          | none =>
            ((window_render_elements
                (windows.filter (fun w => w.is_on_active_tag))).1).map
              .windowSurface) ++
        L.top.map .surface ++
        (match snapshot with
          | some p => p.2.map OutputRenderElement.snapshot
          | none =>
            ((window_render_elements
                (windows.filter (fun w => w.is_on_active_tag))).2).map
              .windowSurface) ++
        L.bottom.map .surface ++ L.background.map .surface ∧
    ((output_render_elements L snapshot windows).1.take
        L.overlay.length).all OutputRenderElement.isLayerSurface = true ∧
    ((output_render_elements L snapshot windows).1.drop
        ((output_render_elements L snapshot windows).1.length -
          L.background.length)).all OutputRenderElement.isLayerSurface = true := by
  have hover : (L.overlay.map OutputRenderElement.surface).length =
      L.overlay.length := by simp
  refine ⟨?_, ?_, ?_⟩
  · cases snapshot <;> simp [output_render_elements]
  · cases snapshot with
    | none =>
      simp only [output_render_elements, List.append_assoc]
      rw [List.take_left' hover]
      exact all_layer_map_surface L.overlay
    | some p =>
      simp only [output_render_elements, List.append_assoc]
      rw [List.take_left' hover]
      exact all_layer_map_surface L.overlay
  · cases snapshot with
    | none =>
      simp only [output_render_elements]
      rw [List.drop_left' (by simp; omega)]
      exact all_layer_map_surface L.background
    | some p =>
      simp only [output_render_elements]
      rw [List.drop_left' (by simp; omega)]
      exact all_layer_map_surface L.background

/-- Counterexample to claim C7 as stated: rendering the live window list
is not mutation-free — a window with a pending offscreen element id has
that id taken, so the window state after the call differs from the state
before. -/
theorem output_render_elements_mutates :
    (output_render_elements ⟨[], [], [], []⟩ none
        [⟨0, false, true, some 0⟩]).2 ≠ [⟨0, false, true, some 0⟩] := by
  decide

/-- Claim C7 as amended: render composition leaves every window's
identity, fullscreen flag and tag membership unchanged and, with a
layout-transition snapshot present, mutates no window state at all; its
only effect on the shared model is clearing the `offscreen_elem_id` of
each active-tag window when the live window list is rendered. -/
theorem output_render_elements_effect (L : LayerRenderElements)
    (snapshot : Option (List Nat × List Nat)) (windows : List Window) :
    (output_render_elements L snapshot windows).2 =
      (match snapshot with
        | some _ => windows
        | none => windows.map (fun w =>
            if w.is_on_active_tag then clearOffscreen w else w)) ∧
    ((output_render_elements L snapshot windows).2).map clearOffscreen =
      windows.map clearOffscreen := by
  constructor
  · cases snapshot <;> simp [output_render_elements]
  · cases snapshot with
    | some p => simp [output_render_elements]
    | none =>
      simp only [output_render_elements, Option.isNone_none, Bool.true_and,
        List.map_map]
      congr 1
      funext w
      by_cases hw : w.is_on_active_tag <;> simp [hw, clearOffscreen]

end Pinnacle
